import Mathlib

/-!
Verification of the consensus and replicated state-machine layer of the
`config-server-rs` repository against its design specification.

The development shallowly embeds the Rust sources:

* `src/src/raft/mod.rs` — the per-node Raft skeleton (`NodeState`,
  `RaftNode`, the election-timer body, the getters);
* `src/config-raft/src/lib.rs` — the `RaftCommand` log-command type and the
  `RaftConfigManager` proposal path;
* `src/config-common/src/lib.rs` — the shared error taxonomy and the
  configuration metadata/content records.

Where the repository leaves a function as a `todo!()` stub (the proposal
path, the config state machine apply, vote handling), a definition modelled
from the specification's words stands in for it; each such definition says so
in its doc comment.
-/

/-- Node role, mirroring `NodeState` in `src/src/raft/mod.rs` (lines 6-11):
`Follower | Candidate | Leader`. -/
inductive NodeState where
  | Follower
  | Candidate
  | Leader
deriving DecidableEq, Repr

/-- Raft configuration, mirroring `crate::config::RaftConfig` as used by
`src/src/raft/mod.rs` and defined in `config-center/src/config/mod.rs`
(lines 46-52): node id, data directory, peer list, heartbeat interval and
election timeout.  The `PathBuf` data directory is embedded as a string. -/
structure RaftConfig where
  node_id : String
  data_dir : String
  peers : List String
  heartbeat_interval : Nat
  election_timeout : Nat
deriving DecidableEq, Repr

/-- Per-node Raft state, mirroring the `RaftNode` struct of
`src/src/raft/mod.rs` (lines 13-19): the configuration plus the three
lock-protected cells `state`, `current_term` and `voted_for`. -/
structure RaftNode where
  config : RaftConfig
  state : NodeState
  current_term : Nat
  voted_for : Option String
deriving DecidableEq, Repr

/-- Constructor `RaftNode::new` (`src/src/raft/mod.rs` lines 22-29): always
returns `Ok` with role `Follower`, term `0` and no vote recorded.  The
`anyhow::Result` return type is embedded as `Except String`. -/
def RaftNode.new (config : RaftConfig) : Except String RaftNode :=
  Except.ok
    { config := config
      state := NodeState.Follower
      current_term := 0
      voted_for := none }

/-- Getter `RaftNode::get_state` (`src/src/raft/mod.rs` lines 104-106). -/
def RaftNode.get_state (n : RaftNode) : NodeState :=
  n.state

/-- Getter `RaftNode::get_term` (`src/src/raft/mod.rs` lines 108-110). -/
def RaftNode.get_term (n : RaftNode) : Nat :=
  n.current_term

/-- Getter `RaftNode::get_voted_for` (`src/src/raft/mod.rs` lines 112-114). -/
def RaftNode.get_voted_for (n : RaftNode) : Option String :=
  n.voted_for

/-- Vote-request message shape from the specification's cluster-transport
interface: `{term, candidateId, lastLogIndex, lastLogTerm}`.  The source
never constructs such a message; the type exists so that the election tick
can be stated together with the messages it emits. -/
structure VoteRequest where
  term : Nat
  candidate_id : String
  last_log_index : Nat
  last_log_term : Nat
deriving DecidableEq, Repr

/-- One iteration of the election-timer loop body of
`RaftNode::start_election_timer` (`src/src/raft/mod.rs` lines 52-73),
together with the list of vote-request messages it sends.  The source
matches on the role: a `Follower` becomes `Candidate`, increments the term
and records a vote for itself; the `Candidate` arm holds only a
`TODO: Implement vote request logic` comment and mutates nothing; the
`Leader` arm mutates nothing.  No arm sends any message, so the emitted
message list is `[]` in every branch. -/
def RaftNode.electionTick (n : RaftNode) : RaftNode × List VoteRequest :=
  match n.state with
  | NodeState.Follower =>
      ({ n with
          state := NodeState.Candidate
          current_term := n.current_term + 1
          voted_for := some n.config.node_id }, [])
  | NodeState.Candidate => (n, [])
  | NodeState.Leader => (n, [])

/-- One iteration of the heartbeat-timer loop body of
`RaftNode::start_heartbeat_timer` (`src/src/raft/mod.rs` lines 89-98): it
only reads `state` and `current_term`; the leader arm holds a
`TODO: Implement heartbeat logic` comment, so no state changes and no
message is sent in any branch. -/
def RaftNode.heartbeatTick (n : RaftNode) : RaftNode :=
  n

/-- A sample configuration with two peers, used to exercise the election
tick on concrete inputs. -/
def sampleConfig : RaftConfig :=
  { node_id := "node1"
    data_dir := "/tmp/raft"
    peers := ["node2", "node3"]
    heartbeat_interval := 100
    election_timeout := 1000 }

/-- A sample freshly started follower node over `sampleConfig`. -/
def sampleFollower : RaftNode :=
  { config := sampleConfig
    state := NodeState.Follower
    current_term := 0
    voted_for := none }

/-- C9: for every `RaftConfig`, `RaftNode::new` returns `Ok`, and the fresh
node reports role `Follower`, term `0` and no recorded vote through
`get_state`, `get_term` and `get_voted_for`. -/
theorem raftNode_new_fresh_follower (config : RaftConfig) :
    ∃ n : RaftNode, RaftNode.new config = Except.ok n ∧
      n.get_state = NodeState.Follower ∧
      n.get_term = 0 ∧
      n.get_voted_for = none := by
  refine ⟨_, rfl, rfl, rfl, rfl⟩

/-- C10: when the election timer fires while the node is `Candidate` or
`Leader`, the node is left completely unchanged (role, term and vote
record), and no message is sent: in particular a timed-out `Candidate`
neither increments its term nor starts a new election round. -/
theorem electionTick_frame_candidate_leader (n : RaftNode)
    (h : n.state = NodeState.Candidate ∨ n.state = NodeState.Leader) :
    RaftNode.electionTick n = (n, []) := by
  unfold RaftNode.electionTick
  rcases h with h | h <;> rw [h]

/-- Witness for C10: a concrete candidate node is untouched by the election
tick. -/
theorem electionTick_frame_candidate_leader_witness :
    RaftNode.electionTick
        { config := sampleConfig
          state := NodeState.Candidate
          current_term := 5
          voted_for := some "node1" } =
      ({ config := sampleConfig
         state := NodeState.Candidate
         current_term := 5
         voted_for := some "node1" }, []) :=
  electionTick_frame_candidate_leader _ (Or.inl rfl)

/-- C3, counterexample: on the concrete follower `sampleFollower`, whose
peer list has two entries, the election tick transitions to `Candidate` but
emits no vote-request message at all, refuting the part of the claim that
says the node "requests votes from all peers carrying its last log
index/term". -/
theorem electionTick_sends_no_vote_requests :
    sampleFollower.config.peers = ["node2", "node3"] ∧
      (RaftNode.electionTick sampleFollower).1.state = NodeState.Candidate ∧
      (RaftNode.electionTick sampleFollower).2 = [] := by
  refine ⟨rfl, rfl, rfl⟩

/-- C3, amended: when the election timer fires on a `Follower`, the node
transitions to `Candidate`, increments its current term by exactly one, and
records a vote for itself (its own node id); however, no vote-request
message is sent to any peer — the vote-request logic is unimplemented in the
source. -/
theorem electionTick_follower_becomes_candidate (n : RaftNode)
    (h : n.state = NodeState.Follower) :
    (RaftNode.electionTick n).1.state = NodeState.Candidate ∧
      (RaftNode.electionTick n).1.current_term = n.current_term + 1 ∧
      (RaftNode.electionTick n).1.voted_for = some n.config.node_id ∧
      (RaftNode.electionTick n).2 = [] := by
  unfold RaftNode.electionTick
  rw [h]
  exact ⟨rfl, rfl, rfl, rfl⟩

/-- Witness for the amended C3 theorem at the concrete follower
`sampleFollower`. -/
theorem electionTick_follower_becomes_candidate_witness :
    (RaftNode.electionTick sampleFollower).1.state = NodeState.Candidate ∧
      (RaftNode.electionTick sampleFollower).1.current_term =
        sampleFollower.current_term + 1 ∧
      (RaftNode.electionTick sampleFollower).1.voted_for =
        some sampleFollower.config.node_id ∧
      (RaftNode.electionTick sampleFollower).2 = [] :=
  electionTick_follower_becomes_candidate sampleFollower rfl

/-- Supported configuration formats, mirroring `ConfigFormat` in
`src/config-common/src/lib.rs` (lines 79-85). -/
inductive ConfigFormat where
  | Yaml
  | Properties
  | Json
  | Toml
deriving DecidableEq, Repr

/-- Configuration content with type information, mirroring `ConfigContent`
in `src/config-common/src/lib.rs` (lines 70-76). -/
structure ConfigContent where
  format : ConfigFormat
  content : String
  is_encrypted : Bool
deriving DecidableEq, Repr

/-- Raft log command, mirroring `RaftCommand` in
`src/config-raft/src/lib.rs` (lines 26-48).  `CreateConfig` carries the full
scoping (name, namespace, department, application, environment), an optional
description, the content payload and the creating actor; `UpdateConfig`
carries the target id, optional description, content and the updating actor;
`DeleteConfig` carries only the target id.  The Rust field `namespace` is
embedded as `nspace` because `namespace` is a Lean keyword. -/
inductive RaftCommand where
  | CreateConfig (name : String) (nspace : String) (department : String)
      (application : String) (environment : String)
      (description : Option String) (content : ConfigContent)
      (created_by : String)
  | UpdateConfig (id : String) (description : Option String)
      (content : ConfigContent) (updated_by : String)
  | DeleteConfig (id : String)
deriving DecidableEq, Repr

/-- Actor identity carried by a command: the `created_by` field of
`CreateConfig`, the `updated_by` field of `UpdateConfig`; `DeleteConfig` has
no actor field in the source, so the actor is `none`. -/
def RaftCommand.actor : RaftCommand → Option String
  | RaftCommand.CreateConfig _ _ _ _ _ _ _ created_by => some created_by
  | RaftCommand.UpdateConfig _ _ _ updated_by => some updated_by
  | RaftCommand.DeleteConfig _ => none

/-- C8, counterexample: the concrete command `DeleteConfig "cfg-1"` carries
no actor identity — the `DeleteConfig` variant of `RaftCommand` in
`src/config-raft/src/lib.rs` has only an `id` field, refuting the part of
the claim that every `DeleteConfig` command includes an actor identity. -/
theorem deleteConfig_has_no_actor :
    RaftCommand.actor (RaftCommand.DeleteConfig "cfg-1") = none := by
  rfl

/-- C8, amended: `CreateConfig` carries the full scoping, content payload
(with its format) and actor identity; `UpdateConfig` carries the target id,
content and actor identity; but `DeleteConfig` carries only the target id
and in particular no actor identity. -/
theorem raftCommand_actor_fields (name nspace department application
    environment : String) (description : Option String)
    (content : ConfigContent) (created_by : String) (id upid : String)
    (udesc : Option String) (ucontent : ConfigContent)
    (updated_by : String) :
    RaftCommand.actor (RaftCommand.CreateConfig name nspace department
        application environment description content created_by) =
      some created_by ∧
    RaftCommand.actor (RaftCommand.UpdateConfig upid udesc ucontent
        updated_by) = some updated_by ∧
    RaftCommand.actor (RaftCommand.DeleteConfig id) = none := by
  exact ⟨rfl, rfl, rfl⟩

/-- Common error type, mirroring `Error` in `src/config-common/src/lib.rs`
(lines 8-39).  Note that the enum has no `NotLeader` variant; the
specification's `NotLeader` fault lives in the consensus layer and is
embedded separately as `ProposeError`. -/
inductive Error where
  | Database (msg : String)
  | Cache (msg : String)
  | Config (msg : String)
  | Auth (msg : String)
  | Authorization (msg : String)
  | Validation (msg : String)
  | NotFound (msg : String)
  | AlreadyExists (msg : String)
  | Internal (msg : String)
  | PrometheusError (msg : String)
deriving DecidableEq, Repr

/-- Log entry from the specification's data model:
`{index: u64, term: Term, command: Command}`. -/
structure LogEntry where
  index : Nat
  term : Nat
  command : RaftCommand
deriving DecidableEq, Repr

/-- Modelled from the spec: the consensus-side state behind
`RaftNode::propose` in `src/config-raft/src/lib.rs` (lines 166-169), which
is a `todo!()` stub.  The specification requires a role, a current term and
an append-only command log on which proposals operate. -/
structure RaftServer where
  role : NodeState
  current_term : Nat
  log : List LogEntry
deriving DecidableEq, Repr

/-- Modelled from the spec (§7 error taxonomy): the availability-level
faults a proposal can surface — `NotLeader` (redirect/retry) and `Timeout`
(proposal not confirmed committed within bound).  The repository's common
`Error` enum carries only the domain-level faults. -/
inductive ProposeError where
  | NotLeader
  | Timeout
deriving DecidableEq, Repr

/-- Modelled from the spec: `RaftNode::propose` (`src/config-raft/src/lib.rs`
lines 166-169 is a `todo!()` stub).  Per §4.4, if the local node is not the
Leader the proposal fails with `NotLeader` and nothing is appended;
otherwise the leader appends the command at the next index with its current
term and reports that index. -/
def RaftServer.propose (s : RaftServer) (cmd : RaftCommand) :
    RaftServer × Except ProposeError Nat :=
  match s.role with
  | NodeState.Leader =>
      ({ s with
          log := s.log ++ [{ index := s.log.length + 1
                             term := s.current_term
                             command := cmd }] },
        Except.ok (s.log.length + 1))
  | NodeState.Follower => (s, Except.error ProposeError.NotLeader)
  | NodeState.Candidate => (s, Except.error ProposeError.NotLeader)

/-- Configuration entity from the specification's data model (§3):
`{id, name, namespace, department, application, environment, version,
content, description, actor fields}` plus a tombstone flag set by
`DeleteConfig`.  Wall-clock timestamps are outside the model.  The Rust
field `namespace` is embedded as `nspace` because `namespace` is a Lean
keyword. -/
structure ConfigEntity where
  id : String
  name : String
  nspace : String
  department : String
  application : String
  environment : String
  version : Nat
  content : ConfigContent
  description : Option String
  created_by : String
  updated_by : String
  deleted : Bool
deriving DecidableEq, Repr

/-- Scoping comparison used by `CreateConfig` duplicate detection:
name+namespace+department+application+environment. -/
def ConfigEntity.sameScope (e : ConfigEntity) (name nspace department
    application environment : String) : Bool :=
  e.name == name && e.nspace == nspace && e.department == department &&
    e.application == application && e.environment == environment

/-- Modelled from the spec: the config state machine's materialized state
(§4.3); the apply path of the repository is absent (`RaftConfigManager`'s
wait-for-apply is a `TODO` and `RaftNode` is a stub).  Entities live in a
list; `next_id` generates fresh entity ids. -/
structure StateMachine where
  entities : List ConfigEntity
  next_id : Nat
deriving DecidableEq, Repr

/-- Duplicate check for `CreateConfig`: is there an active (non-tombstoned)
entity with the same name+namespace+department+application+environment? -/
def StateMachine.hasActiveDup (sm : StateMachine) (name nspace department
    application environment : String) : Bool :=
  sm.entities.any (fun e =>
    !e.deleted && e.sameScope name nspace department application environment)

/-- Lookup of an active (non-tombstoned) entity by id; used by
`UpdateConfig`/`DeleteConfig` and by reads. -/
def StateMachine.findActive (sm : StateMachine) (id : String) :
    Option ConfigEntity :=
  sm.entities.find? (fun e => e.id == id && !e.deleted)

/-- Modelled from the spec: the deterministic apply of a committed command
(§4.3 apply rules).  `CreateConfig` fails with `AlreadyExists` (recorded in
the result, not a crash) when an active entity with the same scoping
exists, and otherwise inserts a new entity at version 1; `UpdateConfig`
fails with `NotFound` when the id is absent or tombstoned, and otherwise
replaces content/description and increments the version; `DeleteConfig`
fails with `NotFound` when absent, and otherwise tombstones the entity. -/
def applyCommand (sm : StateMachine) :
    RaftCommand → StateMachine × Except Error ConfigEntity
  | RaftCommand.CreateConfig name nspace department application environment
      description content created_by =>
      if sm.hasActiveDup name nspace department application environment then
        (sm, Except.error (Error.AlreadyExists name))
      else
        let e : ConfigEntity :=
          { id := toString sm.next_id
            name := name
            nspace := nspace
            department := department
            application := application
            environment := environment
            version := 1
            content := content
            description := description
            created_by := created_by
            updated_by := created_by
            deleted := false }
        ({ entities := e :: sm.entities, next_id := sm.next_id + 1 },
          Except.ok e)
  | RaftCommand.UpdateConfig id description content updated_by =>
      match sm.findActive id with
      | none => (sm, Except.error (Error.NotFound id))
      | some e =>
          let e2 := { e with
            description := description
            content := content
            version := e.version + 1
            updated_by := updated_by }
          ({ sm with
              entities := sm.entities.map (fun x => if x.id == id then e2 else x) },
            Except.ok e2)
  | RaftCommand.DeleteConfig id =>
      match sm.findActive id with
      | none => (sm, Except.error (Error.NotFound id))
      | some e =>
          let e2 := { e with deleted := true }
          ({ sm with
              entities := sm.entities.map (fun x => if x.id == id then e2 else x) },
            Except.ok e2)

/-- Modelled from the spec: a node's Replicated Config Manager view — the
consensus state plus the co-located config state machine (§2 control
flow). -/
structure Server where
  raft : RaftServer
  sm : StateMachine
deriving DecidableEq, Repr

/-- Modelled from the spec (§4.4, §7): the faults a manager operation can
surface to callers — availability-level `NotLeader`/`Timeout`, or a
domain-level error produced by the state machine apply. -/
inductive OpError where
  | NotLeader
  | Timeout
  | Domain (e : Error)
deriving DecidableEq, Repr

/-- Modelled from the spec: the create/update/delete path of
`RaftConfigManager` (`src/config-raft/src/lib.rs` lines 83-140; the
wait-for-apply is a `TODO` followed by `todo!()`).  Per §4.4 the command is
proposed to the local consensus core; on failure the availability fault is
returned; on success the call suspends until the entry is applied by the
state machine and then returns the state machine's result. -/
def submitCommand (srv : Server) (cmd : RaftCommand) :
    Server × Except OpError ConfigEntity :=
  match RaftServer.propose srv.raft cmd with
  | (r2, Except.error ProposeError.NotLeader) =>
      ({ srv with raft := r2 }, Except.error OpError.NotLeader)
  | (r2, Except.error ProposeError.Timeout) =>
      ({ srv with raft := r2 }, Except.error OpError.Timeout)
  | (r2, Except.ok _) =>
      match applyCommand srv.sm cmd with
      | (sm2, Except.ok e) => ({ raft := r2, sm := sm2 }, Except.ok e)
      | (sm2, Except.error er) =>
          ({ raft := r2, sm := sm2 }, Except.error (OpError.Domain er))

/-- A sample content payload. -/
def sampleContent : ConfigContent :=
  { format := ConfigFormat.Yaml
    content := "key: value"
    is_encrypted := false }

/-- A sample `CreateConfig` command. -/
def sampleCommand : RaftCommand :=
  RaftCommand.CreateConfig "a" "default" "dep" "app" "prod" none
    sampleContent "alice"

/-- A sample server whose local node is a follower. -/
def followerServer : Server :=
  { raft := { role := NodeState.Follower, current_term := 3, log := [] }
    sm := { entities := [], next_id := 0 } }

/-- A sample server whose local node is the leader. -/
def leaderServer : Server :=
  { raft := { role := NodeState.Leader, current_term := 1, log := [] }
    sm := { entities := [], next_id := 0 } }

/-- C1: a create/update/delete operation submitted while the local node is
not the Leader fails with `NotLeader` and leaves the whole server state —
in particular the log — unchanged. -/
theorem submit_not_leader (srv : Server) (cmd : RaftCommand)
    (h : srv.raft.role ≠ NodeState.Leader) :
    submitCommand srv cmd = (srv, Except.error OpError.NotLeader) := by
  cases hr : srv.raft.role with
  | Leader => exact absurd hr h
  | Follower => simp [submitCommand, RaftServer.propose, hr]
  | Candidate => simp [submitCommand, RaftServer.propose, hr]

/-- Witness for C1: a concrete proposal on `followerServer` fails with
`NotLeader` and mutates nothing. -/
theorem submit_not_leader_witness :
    submitCommand followerServer sampleCommand =
      (followerServer, Except.error OpError.NotLeader) :=
  submit_not_leader followerServer sampleCommand (by decide)

/-- C2: applying `CreateConfig` returns `AlreadyExists` (recorded in the
result, not a crash) and leaves the state unchanged whenever an active
entity with the same name+namespace+department+application+environment
exists; otherwise it inserts a new entity at version 1, immediately
readable by its id, after which a second `CreateConfig` with the same
scoping fails with `AlreadyExists` without changing the state. -/
theorem applyCreate_spec (sm : StateMachine) (name nspace department
    application environment : String) (description : Option String)
    (content : ConfigContent) (created_by : String) :
    (sm.hasActiveDup name nspace department application environment = true →
        applyCommand sm (RaftCommand.CreateConfig name nspace department
            application environment description content created_by) =
          (sm, Except.error (Error.AlreadyExists name)))
    ∧ (sm.hasActiveDup name nspace department application environment = false →
        ∃ e : ConfigEntity,
          applyCommand sm (RaftCommand.CreateConfig name nspace department
              application environment description content created_by) =
            ({ entities := e :: sm.entities, next_id := sm.next_id + 1 },
              Except.ok e)
          ∧ e.version = 1
          ∧ StateMachine.findActive
              { entities := e :: sm.entities, next_id := sm.next_id + 1 }
              e.id = some e
          ∧ ∀ (d2 : Option String) (c2 : ConfigContent) (cb2 : String),
              applyCommand
                  { entities := e :: sm.entities, next_id := sm.next_id + 1 }
                  (RaftCommand.CreateConfig name nspace department
                    application environment d2 c2 cb2) =
                ({ entities := e :: sm.entities, next_id := sm.next_id + 1 },
                  Except.error (Error.AlreadyExists name))) := by
  constructor
  · intro h
    simp [applyCommand, h]
  · intro h
    refine ⟨{ id := toString sm.next_id
              name := name
              nspace := nspace
              department := department
              application := application
              environment := environment
              version := 1
              content := content
              description := description
              created_by := created_by
              updated_by := created_by
              deleted := false }, ?_, rfl, ?_, ?_⟩
    · simp [applyCommand, h]
    · simp [StateMachine.findActive]
    · intro d2 c2 cb2
      simp [applyCommand, StateMachine.hasActiveDup, ConfigEntity.sameScope]

/-- Witness for C2: on an empty state machine, a concrete first
`CreateConfig` inserts an entity at version 1 that is immediately readable,
and any second `CreateConfig` with the same scoping fails with
`AlreadyExists` without changing the state. -/
theorem applyCreate_spec_witness :
    ∃ e : ConfigEntity,
      applyCommand { entities := [], next_id := 0 }
          (RaftCommand.CreateConfig "a" "default" "dep" "app" "prod" none
            sampleContent "alice") =
        ({ entities := [e], next_id := 1 }, Except.ok e)
      ∧ e.version = 1
      ∧ StateMachine.findActive { entities := [e], next_id := 1 } e.id =
          some e
      ∧ ∀ (d2 : Option String) (c2 : ConfigContent) (cb2 : String),
          applyCommand { entities := [e], next_id := 1 }
              (RaftCommand.CreateConfig "a" "default" "dep" "app" "prod" d2
                c2 cb2) =
            ({ entities := [e], next_id := 1 },
              Except.error (Error.AlreadyExists "a")) :=
  (applyCreate_spec { entities := [], next_id := 0 } "a" "default" "dep"
    "app" "prod" none sampleContent "alice").2 rfl

/-- C6: applying `UpdateConfig` whose id is absent or tombstoned returns
`NotFound` and leaves the whole state machine unchanged (so no entity's
version counter advances); when an active entity with that id exists, the
apply succeeds with an entity whose content and description are replaced
and whose version is incremented by one. -/
theorem applyUpdate_spec (sm : StateMachine) (id : String)
    (description : Option String) (content : ConfigContent)
    (updated_by : String) :
    (sm.findActive id = none →
        applyCommand sm
            (RaftCommand.UpdateConfig id description content updated_by) =
          (sm, Except.error (Error.NotFound id)))
    ∧ ∀ e : ConfigEntity, sm.findActive id = some e →
        ∃ e2 : ConfigEntity,
          (applyCommand sm
              (RaftCommand.UpdateConfig id description content
                updated_by)).2 = Except.ok e2
          ∧ e2.version = e.version + 1
          ∧ e2.content = content
          ∧ e2.description = description
          ∧ e2.id = e.id
          ∧ e2.name = e.name := by
  constructor
  · intro h
    simp [applyCommand, h]
  · intro e h
    refine ⟨{ e with
        description := description
        content := content
        version := e.version + 1
        updated_by := updated_by }, ?_, rfl, rfl, rfl, rfl, rfl⟩
    simp [applyCommand, h]

/-- Sample entity stored under id "0", used to exercise the update path. -/
def sampleEntity : ConfigEntity :=
  { id := "0"
    name := "a"
    nspace := "default"
    department := "dep"
    application := "app"
    environment := "prod"
    version := 1
    content := sampleContent
    description := none
    created_by := "alice"
    updated_by := "alice"
    deleted := false }

/-- Witness for C6: updating the concrete stored entity with id "0"
succeeds with version bumped from 1 to 2 and the new content and
description in place. -/
theorem applyUpdate_spec_witness :
    ∃ e2 : ConfigEntity,
      (applyCommand { entities := [sampleEntity], next_id := 1 }
          (RaftCommand.UpdateConfig "0" (some "d")
            { format := ConfigFormat.Json
              content := "{}"
              is_encrypted := false } "bob")).2 = Except.ok e2
      ∧ e2.version = sampleEntity.version + 1
      ∧ e2.content =
          { format := ConfigFormat.Json
            content := "{}"
            is_encrypted := false }
      ∧ e2.description = some "d"
      ∧ e2.id = sampleEntity.id
      ∧ e2.name = sampleEntity.name :=
  (applyUpdate_spec { entities := [sampleEntity], next_id := 1 } "0"
      (some "d")
      { format := ConfigFormat.Json
        content := "{}"
        is_encrypted := false } "bob").2 sampleEntity (by decide)

/-- C7: a create/update/delete call whose proposal succeeds returns exactly
the state machine's apply result (entity metadata, or a domain error such
as `AlreadyExists`/`NotFound` wrapped as `OpError.Domain`), with the state
machine advanced by that apply; and no proposal is silently dropped — every
submitted command resolves either to an explicit `NotLeader` failure or to
the committed apply result. -/
theorem submit_applies_result (srv : Server) (cmd : RaftCommand) (idx : Nat)
    (h : (RaftServer.propose srv.raft cmd).2 = Except.ok idx) :
    ((submitCommand srv cmd).1.sm = (applyCommand srv.sm cmd).1
      ∧ (submitCommand srv cmd).2 =
          Except.mapError OpError.Domain (applyCommand srv.sm cmd).2)
    ∧ ∀ (srv2 : Server) (cmd2 : RaftCommand),
        (submitCommand srv2 cmd2).2 = Except.error OpError.NotLeader ∨
        (submitCommand srv2 cmd2).2 =
          Except.mapError OpError.Domain (applyCommand srv2.sm cmd2).2 := by
  constructor
  · cases hr : srv.raft.role with
    | Follower => simp [RaftServer.propose, hr] at h
    | Candidate => simp [RaftServer.propose, hr] at h
    | Leader =>
        rcases ha : applyCommand srv.sm cmd with ⟨sm2, res⟩
        cases res with
        | ok e =>
            constructor <;>
              simp [submitCommand, RaftServer.propose, hr, ha,
                Except.mapError]
        | error er =>
            constructor <;>
              simp [submitCommand, RaftServer.propose, hr, ha,
                Except.mapError]
  · intro srv2 cmd2
    cases hr2 : srv2.raft.role with
    | Follower =>
        left
        simp [submitCommand, RaftServer.propose, hr2]
    | Candidate =>
        left
        simp [submitCommand, RaftServer.propose, hr2]
    | Leader =>
        right
        rcases ha2 : applyCommand srv2.sm cmd2 with ⟨sm2, res⟩
        cases res <;>
          simp [submitCommand, RaftServer.propose, hr2, ha2,
            Except.mapError]

/-- Witness for C7: on the concrete `leaderServer`, the proposal of
`sampleCommand` succeeds at index 1 and the call returns the state
machine's apply result. -/
theorem submit_applies_result_witness :
    ((submitCommand leaderServer sampleCommand).1.sm =
        (applyCommand leaderServer.sm sampleCommand).1
      ∧ (submitCommand leaderServer sampleCommand).2 =
          Except.mapError OpError.Domain
            (applyCommand leaderServer.sm sampleCommand).2)
    ∧ ∀ (srv2 : Server) (cmd2 : RaftCommand),
        (submitCommand srv2 cmd2).2 = Except.error OpError.NotLeader ∨
        (submitCommand srv2 cmd2).2 =
          Except.mapError OpError.Domain (applyCommand srv2.sm cmd2).2 :=
  submit_applies_result leaderServer sampleCommand 1 rfl

/-- Modelled from the spec: per-node election-protocol state over a cluster
of `n` nodes (§4.1).  Besides the role and current term of the source's
`RaftNode`, the record of the vote cast in each term is kept, because the
specification's invariant "a node never votes twice in the same term" is a
condition on votes per term.  Node identities are `Fin n`. -/
structure ProtoNode (n : Nat) where
  role : NodeState
  term : Nat
  votes : List (Nat × Fin n)
deriving DecidableEq

/-- Lookup of the vote cast in a given term in a vote record (first match
wins). -/
def lookupVote {n : Nat} : List (Nat × Fin n) → Nat → Option (Fin n)
  | [], _ => none
  | (t, c) :: rest, t2 => if t2 = t then some c else lookupVote rest t2

/-- Modelled from the spec: one step of the cluster election protocol
(§4.1); vote handling and leader promotion are absent from the source (the
candidate arm of `start_election_timer` is a `TODO`).  `timeout` is the
source's follower arm of the election tick: become candidate, increment the
term, vote for self.  `grantVote` grants a vote to a candidate only if the
candidate's term is at least the voter's own and the voter has not already
voted in that term (the spec's log up-to-date check is omitted: this model
carries no logs, and the extra behaviours only weaken the voter, never the
safety argument).  `becomeLeader` promotes a candidate holding votes from a
strict majority.  `observeHigherTerm` demotes any node that sees a message
with a strictly higher term. -/
inductive ClusterStep (n : Nat) :
    (Fin n → ProtoNode n) → (Fin n → ProtoNode n) → Prop where
  | timeout (s : Fin n → ProtoNode n) (i : Fin n)
      (hrole : (s i).role = NodeState.Follower) :
      ClusterStep n s (Function.update s i
        { role := NodeState.Candidate
          term := (s i).term + 1
          votes := ((s i).term + 1, i) :: (s i).votes })
  | grantVote (s : Fin n → ProtoNode n) (i j : Fin n)
      (hcand : (s i).role = NodeState.Candidate)
      (hterm : (s j).term ≤ (s i).term)
      (hfresh : lookupVote (s j).votes (s i).term = none) :
      ClusterStep n s (Function.update s j
        { role := if (s j).term < (s i).term then NodeState.Follower
                  else (s j).role
          term := (s i).term
          votes := ((s i).term, i) :: (s j).votes })
  | becomeLeader (s : Fin n → ProtoNode n) (i : Fin n)
      (hcand : (s i).role = NodeState.Candidate)
      (Q : Finset (Fin n))
      (hmaj : n < 2 * Q.card)
      (hvotes : ∀ j ∈ Q, lookupVote (s j).votes (s i).term = some i) :
      ClusterStep n s (Function.update s i
        { role := NodeState.Leader
          term := (s i).term
          votes := (s i).votes })
  | observeHigherTerm (s : Fin n → ProtoNode n) (i : Fin n) (t : Nat)
      (hlt : (s i).term < t) :
      ClusterStep n s (Function.update s i
        { role := NodeState.Follower
          term := t
          votes := (s i).votes })

/-- Initial cluster: every node a follower at term 0 with no votes cast,
matching `RaftNode::new`. -/
def initCluster (n : Nat) : Fin n → ProtoNode n :=
  fun _ => { role := NodeState.Follower, term := 0, votes := [] }

/-- Cluster states reachable from the initial cluster by protocol steps. -/
def ClusterReachable (n : Nat) (s : Fin n → ProtoNode n) : Prop :=
  Relation.ReflTransGen (ClusterStep n) (initCluster n) s

/-- Every vote in a node's record was cast in a term bounded by the node's
current term. -/
def votesBounded {n : Nat} (nd : ProtoNode n) : Prop :=
  ∀ t c, lookupVote nd.votes t = some c → t ≤ nd.term

/-- Every leader holds votes for its current term from a strict majority of
the cluster. -/
def leaderHasQuorum {n : Nat} (s : Fin n → ProtoNode n) (i : Fin n) : Prop :=
  (s i).role = NodeState.Leader →
    ∃ Q : Finset (Fin n), n < 2 * Q.card ∧
      ∀ j ∈ Q, lookupVote (s j).votes (s i).term = some i

/-- Inductive invariant of the election protocol: vote records are bounded
by the current term, and every leader holds a majority of votes for its
term. -/
def ClusterInv {n : Nat} (s : Fin n → ProtoNode n) : Prop :=
  (∀ i, votesBounded (s i)) ∧ (∀ i, leaderHasQuorum s i)

theorem lookupVote_cons {n : Nat} (t : Nat) (c : Fin n)
    (l : List (Nat × Fin n)) (t2 : Nat) :
    lookupVote ((t, c) :: l) t2 = if t2 = t then some c else lookupVote l t2 :=
  rfl

theorem lookupVote_prepend_fresh {n : Nat} {l : List (Nat × Fin n)} {t : Nat}
    (hfresh : lookupVote l t = none) (c : Fin n) {t2 : Nat} {c2 : Fin n}
    (h : lookupVote l t2 = some c2) :
    lookupVote ((t, c) :: l) t2 = some c2 := by
  rw [lookupVote_cons]
  split
  · rename_i heq
    rw [heq, hfresh] at h
    cases h
  · exact h

theorem lookupVote_none_of_bounded {n : Nat} {nd : ProtoNode n}
    (hb : votesBounded nd) {t : Nat} (ht : nd.term < t) :
    lookupVote nd.votes t = none := by
  cases hcase : lookupVote nd.votes t with
  | none => rfl
  | some c => exact absurd (hb t c hcase) (by omega)

theorem clusterStep_preserves_votes {n : Nat} {s s2 : Fin n → ProtoNode n}
    (h : ClusterStep n s s2) (hb : ∀ i, votesBounded (s i)) (j : Fin n)
    {t : Nat} {c : Fin n} (hl : lookupVote (s j).votes t = some c) :
    lookupVote (s2 j).votes t = some c := by
  cases h with
  | timeout i hrole =>
      rcases eq_or_ne j i with rfl | hne
      · rw [Function.update_same]
        exact lookupVote_prepend_fresh
          (lookupVote_none_of_bounded (hb j) (Nat.lt_succ_self _)) _ hl
      · rw [Function.update_noteq hne]
        exact hl
  | grantVote i j0 hcand hterm hfresh =>
      rcases eq_or_ne j j0 with rfl | hne
      · rw [Function.update_same]
        exact lookupVote_prepend_fresh hfresh _ hl
      · rw [Function.update_noteq hne]
        exact hl
  | becomeLeader i hcand Q hmaj hvotes =>
      rcases eq_or_ne j i with rfl | hne
      · rw [Function.update_same]
        exact hl
      · rw [Function.update_noteq hne]
        exact hl
  | observeHigherTerm i t2 hlt =>
      rcases eq_or_ne j i with rfl | hne
      · rw [Function.update_same]
        exact hl
      · rw [Function.update_noteq hne]
        exact hl

theorem clusterStep_votesBounded {n : Nat} {s s2 : Fin n → ProtoNode n}
    (h : ClusterStep n s s2) (hb : ∀ i, votesBounded (s i)) (k : Fin n) :
    votesBounded (s2 k) := by
  cases h with
  | timeout i hrole =>
      rcases eq_or_ne k i with rfl | hne
      · rw [Function.update_same]
        intro t c hl
        rw [lookupVote_cons] at hl
        split at hl
        · dsimp only
          omega
        · have := hb k t c hl
          dsimp only
          omega
      · rw [Function.update_noteq hne]
        exact hb k
  | grantVote i j0 hcand hterm hfresh =>
      rcases eq_or_ne k j0 with rfl | hne
      · rw [Function.update_same]
        intro t c hl
        rw [lookupVote_cons] at hl
        split at hl
        · dsimp only
          omega
        · have := hb k t c hl
          dsimp only
          omega
      · rw [Function.update_noteq hne]
        exact hb k
  | becomeLeader i hcand Q hmaj hvotes =>
      rcases eq_or_ne k i with rfl | hne
      · rw [Function.update_same]
        intro t c hl
        exact hb k t c hl
      · rw [Function.update_noteq hne]
        exact hb k
  | observeHigherTerm i t2 hlt =>
      rcases eq_or_ne k i with rfl | hne
      · rw [Function.update_same]
        intro t c hl
        have := hb k t c hl
        dsimp only
        omega
      · rw [Function.update_noteq hne]
        exact hb k

theorem clusterStep_leaderQuorum {n : Nat} {s s2 : Fin n → ProtoNode n}
    (h : ClusterStep n s s2) (hb : ∀ i, votesBounded (s i))
    (hq : ∀ i, leaderHasQuorum s i) (k : Fin n) :
    leaderHasQuorum s2 k := by
  intro hrole2
  have hpres : ∀ (j : Fin n) (t : Nat) (c : Fin n),
      lookupVote (s j).votes t = some c → lookupVote (s2 j).votes t = some c :=
    fun j t c hl => clusterStep_preserves_votes h hb j hl
  cases h with
  | timeout i hrole =>
      rcases eq_or_ne k i with rfl | hne
      · rw [Function.update_same] at hrole2
        exact NodeState.noConfusion hrole2
      · rw [Function.update_noteq hne] at hrole2
        obtain ⟨Q, hcard, hvQ⟩ := hq k hrole2
        refine ⟨Q, hcard, fun j hj => ?_⟩
        rw [Function.update_noteq hne]
        exact hpres j _ k (hvQ j hj)
  | grantVote i j0 hcand hterm hfresh =>
      rcases eq_or_ne k j0 with rfl | hne
      · rw [Function.update_same] at hrole2
        dsimp only at hrole2
        by_cases hlt : (s k).term < (s i).term
        · rw [if_pos hlt] at hrole2
          exact NodeState.noConfusion hrole2
        · rw [if_neg hlt] at hrole2
          have hteq : (s i).term = (s k).term :=
            Nat.le_antisymm (Nat.not_lt.mp hlt) hterm
          obtain ⟨Q, hcard, hvQ⟩ := hq k hrole2
          refine ⟨Q, hcard, fun j hj => ?_⟩
          rw [Function.update_same]
          dsimp only
          have hv0 : lookupVote (s j).votes ((s i).term) = some k := by
            rw [hteq]
            exact hvQ j hj
          exact hpres j _ k hv0
      · rw [Function.update_noteq hne] at hrole2
        obtain ⟨Q, hcard, hvQ⟩ := hq k hrole2
        refine ⟨Q, hcard, fun j hj => ?_⟩
        rw [Function.update_noteq hne]
        exact hpres j _ k (hvQ j hj)
  | becomeLeader i hcand Q hmaj hvotes =>
      rcases eq_or_ne k i with rfl | hne
      · refine ⟨Q, hmaj, fun j hj => ?_⟩
        rw [Function.update_same]
        dsimp only
        exact hpres j _ k (hvotes j hj)
      · rw [Function.update_noteq hne] at hrole2
        obtain ⟨Q2, hcard2, hvQ2⟩ := hq k hrole2
        refine ⟨Q2, hcard2, fun j hj => ?_⟩
        rw [Function.update_noteq hne]
        exact hpres j _ k (hvQ2 j hj)
  | observeHigherTerm i t2 hlt =>
      rcases eq_or_ne k i with rfl | hne
      · rw [Function.update_same] at hrole2
        exact NodeState.noConfusion hrole2
      · rw [Function.update_noteq hne] at hrole2
        obtain ⟨Q, hcard, hvQ⟩ := hq k hrole2
        refine ⟨Q, hcard, fun j hj => ?_⟩
        rw [Function.update_noteq hne]
        exact hpres j _ k (hvQ j hj)

theorem clusterInv_step {n : Nat} {s s2 : Fin n → ProtoNode n}
    (h : ClusterStep n s s2) (hinv : ClusterInv s) : ClusterInv s2 :=
  ⟨fun k => clusterStep_votesBounded h hinv.1 k,
   fun k => clusterStep_leaderQuorum h hinv.1 hinv.2 k⟩

theorem clusterInv_init (n : Nat) : ClusterInv (initCluster n) := by
  constructor
  · intro i t c hl
    cases hl
  · intro i hrole
    exact NodeState.noConfusion hrole

theorem clusterInv_reachable {n : Nat} {s : Fin n → ProtoNode n}
    (h : ClusterReachable n s) : ClusterInv s := by
  induction h with
  | refl => exact clusterInv_init n
  | tail hsteps hstep ih => exact clusterInv_step hstep ih

theorem quorum_intersect {n : Nat} (Q1 Q2 : Finset (Fin n))
    (h1 : n < 2 * Q1.card) (h2 : n < 2 * Q2.card) :
    ∃ j, j ∈ Q1 ∧ j ∈ Q2 := by
  have hu : (Q1 ∪ Q2).card ≤ n := by
    have hle := Finset.card_le_univ (Q1 ∪ Q2)
    simpa using hle
  have hsum := Finset.card_union_add_card_inter Q1 Q2
  have hint : 0 < (Q1 ∩ Q2).card := by omega
  rcases Finset.card_pos.mp hint with ⟨j, hj⟩
  exact ⟨j, Finset.mem_inter.mp hj⟩

/-- C4: the observed current term of a node never decreases on any step of
execution: along every protocol step of the cluster model (timer ticks,
vote grants, leader promotion, receipt of a higher-term message) every
node's term is monotone; on the source's own timer bodies
(`start_election_timer`, `start_heartbeat_timer`) the term reported by
`get_term` never decreases; and a proposal submission (`propose` alone, or
the full manager call) never decreases the proposing node's term either. -/
theorem term_never_decreases {n : Nat} (s s2 : Fin n → ProtoNode n)
    (h : ClusterStep n s s2) :
    (∀ k : Fin n, (s k).term ≤ (s2 k).term)
    ∧ (∀ nd : RaftNode,
        nd.get_term ≤ (RaftNode.electionTick nd).1.get_term
        ∧ nd.get_term ≤ (RaftNode.heartbeatTick nd).get_term)
    ∧ ∀ (srv : Server) (cmd : RaftCommand),
        srv.raft.current_term ≤ (RaftServer.propose srv.raft cmd).1.current_term
        ∧ srv.raft.current_term ≤ (submitCommand srv cmd).1.raft.current_term := by
  refine ⟨?_, ?_, ?_⟩
  · intro k
    cases h with
    | timeout i hrole =>
        rcases eq_or_ne k i with rfl | hne
        · rw [Function.update_same]
          dsimp only
          omega
        · rw [Function.update_noteq hne]
    | grantVote i j0 hcand hterm hfresh =>
        rcases eq_or_ne k j0 with rfl | hne
        · rw [Function.update_same]
          dsimp only
          omega
        · rw [Function.update_noteq hne]
    | becomeLeader i hcand Q hmaj hvotes =>
        rcases eq_or_ne k i with rfl | hne
        · rw [Function.update_same]
        · rw [Function.update_noteq hne]
    | observeHigherTerm i t2 hlt =>
        rcases eq_or_ne k i with rfl | hne
        · rw [Function.update_same]
          dsimp only
          omega
        · rw [Function.update_noteq hne]
  · intro nd
    constructor
    · cases hs : nd.state with
      | Follower => simp [RaftNode.electionTick, RaftNode.get_term, hs]
      | Candidate => simp [RaftNode.electionTick, RaftNode.get_term, hs]
      | Leader => simp [RaftNode.electionTick, RaftNode.get_term, hs]
    · exact Nat.le_refl _
  · intro srv cmd
    constructor
    · cases hr : srv.raft.role <;>
        simp [RaftServer.propose, hr]
    · cases hr : srv.raft.role with
      | Leader =>
          rcases ha : applyCommand srv.sm cmd with ⟨sm2, res⟩
          cases res <;>
            simp [submitCommand, RaftServer.propose, hr, ha]
      | Follower => simp [submitCommand, RaftServer.propose, hr]
      | Candidate => simp [submitCommand, RaftServer.propose, hr]

/-- A single-node cluster after its follower timed out: node 0 is a
candidate at term 1 holding its own vote. -/
def demoState1 : Fin 1 → ProtoNode 1 :=
  Function.update (initCluster 1) 0
    { role := NodeState.Candidate, term := 1, votes := [(1, 0)] }

/-- The same cluster after node 0 collected the (singleton) majority and
became leader for term 1. -/
def demoState2 : Fin 1 → ProtoNode 1 :=
  Function.update demoState1 0
    { role := NodeState.Leader, term := 1, votes := [(1, 0)] }

theorem demo_step1 : ClusterStep 1 (initCluster 1) demoState1 :=
  ClusterStep.timeout (initCluster 1) 0 rfl

theorem demo_step2 : ClusterStep 1 demoState1 demoState2 :=
  ClusterStep.becomeLeader demoState1 0 rfl {0} (by decide) (by decide)

theorem demo_reachable : ClusterReachable 1 demoState2 :=
  Relation.ReflTransGen.tail (Relation.ReflTransGen.single demo_step1)
    demo_step2

/-- Witness for C4: on the concrete timeout step of the single-node demo
cluster, every node's term is monotone — and so are the source's timer
bodies and every proposal submission. -/
theorem term_never_decreases_witness :
    (∀ k : Fin 1, (initCluster 1 k).term ≤ (demoState1 k).term)
    ∧ (∀ nd : RaftNode,
        nd.get_term ≤ (RaftNode.electionTick nd).1.get_term
        ∧ nd.get_term ≤ (RaftNode.heartbeatTick nd).get_term)
    ∧ ∀ (srv : Server) (cmd : RaftCommand),
        srv.raft.current_term ≤ (RaftServer.propose srv.raft cmd).1.current_term
        ∧ srv.raft.current_term ≤ (submitCommand srv cmd).1.raft.current_term :=
  term_never_decreases (initCluster 1) demoState1 demo_step1

/-- C5: election safety — in every cluster state reachable from the initial
cluster under the election protocol, at most one node is leader for any
given term: two nodes that are both leaders with equal terms are the same
node.  The proof runs through the inductive invariant that every leader
holds votes for its term from a strict majority, votes are never recast
within a term, and any two strict majorities intersect. -/
theorem election_safety {n : Nat} (s : Fin n → ProtoNode n)
    (h : ClusterReachable n s) (i j : Fin n)
    (hi : (s i).role = NodeState.Leader) (hj : (s j).role = NodeState.Leader)
    (hterm : (s i).term = (s j).term) : i = j := by
  obtain ⟨hb, hq⟩ := clusterInv_reachable h
  obtain ⟨Q1, hQ1card, hQ1⟩ := hq i hi
  obtain ⟨Q2, hQ2card, hQ2⟩ := hq j hj
  obtain ⟨k, hk1, hk2⟩ := quorum_intersect Q1 Q2 hQ1card hQ2card
  have e1 := hQ1 k hk1
  have e2 := hQ2 k hk2
  rw [hterm] at e1
  rw [e1] at e2
  exact Option.some.inj e2

/-- Witness for C5: the demo run reaches a state whose node 0 is leader for
term 1, and election safety applied there concludes that any leader of that
term is node 0. -/
theorem election_safety_witness :
    (demoState2 (0 : Fin 1)).role = NodeState.Leader ∧
      (0 : Fin 1) = (0 : Fin 1) :=
  ⟨by decide,
    election_safety demoState2 demo_reachable 0 0 (by decide) (by decide)
      rfl⟩
